import Mathlib

/-!
Verification development for the rn-wallet repository: a personal-finance
tracking application with a backend HTTP API (transactions CRUD over a single
table, fronted by a rate limiter) and a mobile data hook.

The JavaScript source is shallowly embedded: request handlers become pure
functions from an input (request fields, store state, external call outcomes)
to a response value and an updated store; promise-based client code becomes
functions returning `Except` values plus an explicit event trace.
-/

namespace RnWallet

/-- A JavaScript value as it appears in a request body or route binding:
`undef` models `undefined` (a missing field), `vnum` a number, `vstr` a
string. -/
inductive JsVal where
  | undef
  | vnum (n : Int)
  | vstr (s : String)
deriving DecidableEq

/-- JavaScript truthiness of a `JsVal`: `undefined`, `0` and the empty string
are falsy; every other number or string is truthy. -/
def JsVal.truthy : JsVal → Bool
  | .undef => false
  | .vnum n => n != 0
  | .vstr s => s != ""

/-- A persisted transaction record: `id` and `createdAt` are assigned by the
store on creation; the remaining fields come from the create request. -/
structure Transaction where
  id : Nat
  userId : JsVal
  title : JsVal
  amount : Int
  category : JsVal
  createdAt : Nat
deriving DecidableEq

/-- The transaction store: the list of persisted records together with the
store-managed id counter and clock used to assign `id` and `createdAt`. -/
structure Store where
  items : List Transaction
  nextId : Nat
  now : Nat
deriving DecidableEq

/-- The body of a `POST /transactions` request: each of the four expected
fields is a JavaScript value, `undef` when absent. -/
structure CreateBody where
  userId : JsVal
  title : JsVal
  amount : JsVal
  category : JsVal
deriving DecidableEq

/-- Outcome of the create handler: a 400 validation response or a 201 with
the created record. -/
inductive CreateResult where
  | badRequest (message : String)
  | created (t : Transaction)
deriving DecidableEq

/-- HTTP status of a create outcome. -/
def CreateResult.status : CreateResult → Nat
  | .badRequest _ => 400
  | .created _ => 201

/-- The record inserted by a successful create: fields from the body, with
`id` and `createdAt` assigned by the store. -/
def mkTx (b : CreateBody) (n : Int) (st : Store) : Transaction :=
  { id := st.nextId, userId := b.userId, title := b.title,
    amount := n, category := b.category, createdAt := st.now }

/-- Embedding of `createItem` (the create handler): rejects with 400 when
`!userId || !title || amount === undefined || !category` holds, then rejects
with 400 when `typeof amount !== 'number'`, and otherwise inserts the new
record and returns it with 201. -/
def createItem (b : CreateBody) (st : Store) : CreateResult × Store :=
  if !b.userId.truthy || !b.title.truthy || b.amount == JsVal.undef || !b.category.truthy then
    (.badRequest "All fields are required: userId, title, amount, category", st)
  else
    match b.amount with
    | .vnum n =>
        (.created (mkTx b n st),
         { st with items := mkTx b n st :: st.items, nextId := st.nextId + 1, now := st.now + 1 })
    | _ => (.badRequest "Amount must be a number", st)

/-- Embedding of JavaScript `isNaN(parseInt(s))`: `parseInt` skips leading
whitespace and at most one sign character and then reads decimal digits; the
result is `NaN` exactly when no digit follows (a `0x` hex prefix still starts
with the digit `0`, so it never yields `NaN`). -/
def parseIntIsNaN (s : String) : Bool :=
  match s.data.dropWhile (fun c => c.isWhitespace) with
  | [] => true
  | c :: rest =>
    if c == '+' || c == '-' then
      match rest with
      | [] => true
      | d :: _ => !d.isDigit
    else !c.isDigit

/-- Outcome of the delete handler: 400 on a malformed id, 404 when no record
matches, or 200 with a confirmation message and the deleted record. -/
inductive DeleteResult where
  | badRequest (message : String)
  | notFound (message : String)
  | deleted (message : String) (deletedItem : Transaction)
deriving DecidableEq

/-- HTTP status of a delete outcome. -/
def DeleteResult.status : DeleteResult → Nat
  | .badRequest _ => 400
  | .notFound _ => 404
  | .deleted _ _ => 200

/-- Whether the route-parameter string `idStr` denotes the id of record `t`:
the store compares the parameter against the stored numeric id, which
matches exactly when the parameter is the decimal rendering of the id. -/
def idMatches (idStr : String) (t : Transaction) : Bool :=
  Nat.repr t.id == idStr

/-- Embedding of `deleteItem` (the delete handler): 400 when the id is empty
(`!id`), 400 when `isNaN(parseInt(id))`, 404 when no record matches the id,
otherwise the matching record is removed and returned with 200. -/
def deleteItem (idStr : String) (st : Store) : DeleteResult × Store :=
  if idStr == "" then
    (.badRequest "Item ID is required", st)
  else if parseIntIsNaN idStr then
    (.badRequest "Invalid item ID format", st)
  else
    match st.items.find? (idMatches idStr) with
    | none => (.notFound "Item not found", st)
    | some t =>
        (.deleted "Item deleted successfully" t,
         { st with items := st.items.filter (fun x => !idMatches idStr x) })

/-- The summary triple derived from a user's transactions. -/
structure SummaryT where
  balance : Int
  income : Int
  expense : Int
deriving DecidableEq

/-- The amounts of the transactions belonging to user `u`, in store order. -/
def userAmounts (u : JsVal) (items : List Transaction) : List Int :=
  (items.filter (fun t => t.userId == u)).map (fun t => t.amount)

/-- Modelled from the spec: the transactions controller implementing
`Summary(userId)` is not among the provided source files. Per spec sections 3
and 4.2, `balance` is the sum of all the user's amounts, `income` the sum of
the positive ones, `expense` the sum of the negative ones (the fixed sign
convention: `expense` keeps the negative sign), and all three are zero for a
user with no transactions. -/
def summaryOf (u : JsVal) (st : Store) : SummaryT :=
  { balance := (userAmounts u st.items).sum
    income := ((userAmounts u st.items).filter (fun a => decide (0 < a))).sum
    expense := ((userAmounts u st.items).filter (fun a => decide (a < 0))).sum }

/-- The ordering used for listing: a transaction comes before another when its
creation time is at least as recent (descending by `createdAt`). -/
def newerFirst : Transaction → Transaction → Prop :=
  fun a b => b.createdAt ≤ a.createdAt

instance : DecidableRel newerFirst :=
  fun a b => Nat.decLe b.createdAt a.createdAt

instance : IsTotal Transaction newerFirst :=
  ⟨fun a b => Or.symm (Nat.le_total a.createdAt b.createdAt)⟩

instance : IsTrans Transaction newerFirst :=
  ⟨fun _ _ _ h1 h2 => Nat.le_trans h2 h1⟩

/-- Modelled from the spec: the transactions controller implementing
`ListByUser(userId)` is not among the provided source files. Per spec
sections 4.2 and 6, it returns the user's transactions ordered by creation
time descending (most recent first). -/
def listByUser (u : JsVal) (st : Store) : List Transaction :=
  List.insertionSort newerFirst (st.items.filter (fun t => t.userId == u))

/-- Modelled from the spec: the list endpoint replies 200 with the ordered
sequence, also when the sequence is empty. -/
def listByUserResponse (u : JsVal) (st : Store) : Nat × List Transaction :=
  (200, listByUser u st)

/-! ### Rate limiter middleware -/

/-- The parts of an inbound request the rate limiter reads: the
`x-forwarded-for` header when present, Express's `req.ip`, and
`req.connection.remoteAddress`. -/
structure Req where
  forwarded : Option String
  ip : Option String
  remoteAddress : String
deriving DecidableEq

/-- The connection's peer address as the middleware reads it:
`req.ip || req.connection.remoteAddress` (the remote address, with
`req.connection.remoteAddress` as fallback when `req.ip` is falsy). -/
def peerAddress (r : Req) : String :=
  match r.ip with
  | some s => if s == "" then r.remoteAddress else s
  | none => r.remoteAddress

/-- Embedding of JavaScript `String.prototype.trim`: remove whitespace from
both ends of the string. -/
def jsTrim (s : String) : String :=
  String.mk (((s.data.dropWhile Char.isWhitespace).reverse.dropWhile Char.isWhitespace).reverse)

/-- Embedding of the client-key derivation (rateLimiter.js lines 5-9): when
the `x-forwarded-for` header is a string, `forwarded.split(",")[0].trim()` —
the prefix of the header before its first comma, trimmed — otherwise
`req.ip || req.connection.remoteAddress`. -/
def clientKey (r : Req) : String :=
  match r.forwarded with
  | some f => jsTrim (String.mk (f.data.takeWhile (fun c => c != ',')))
  | none => peerAddress r

/-- Outcome of one call to the external limiter: a `success` flag, or a
thrown error (for instance a network failure reaching the service). -/
inductive LimiterCall where
  | ok (success : Bool)
  | threw (e : String)
deriving DecidableEq

/-- What the middleware does with the request: answer directly with a status
and message, pass the request on with `next()`, or route an error to the
generic error handler with `next(error)`. -/
inductive MWOutcome where
  | respond (status : Nat) (message : String)
  | callNext
  | nextWithError (e : String)
deriving DecidableEq

/-- Embedding of the `rateLimiter` middleware: consult the external limiter
on the derived client key; on `success: false` reply 429 with a fixed
message, on success call `next()`, and when the limiter call throws, forward
the error with `next(error)`. -/
def rateLimiter (limit : String → LimiterCall) (r : Req) : MWOutcome :=
  match limit (clientKey r) with
  | .threw e => .nextWithError e
  | .ok false => .respond 429 "Too many requests, please try again later."
  | .ok true => .callNext

/-! ### Mobile data hook (useTransactions.js) -/

/-- A parsed JSON value, as produced by `response.json()`. -/
inductive Json where
  | jnull
  | jbool (b : Bool)
  | jnum (n : Int)
  | jstr (s : String)
  | jarr (elems : List Json)
  | jobj (fields : List (String × Json))

/-- The hook's state: `transactions` and `summary` hold whatever JSON the last
successful fetch parsed (initially an empty array and a zero triple), and
`isLoading` is the loading flag (initially true). -/
structure HookState where
  transactions : Json
  summary : Json
  isLoading : Bool

/-- The hook state produced by the `useState` initializers. -/
def initialHookState : HookState :=
  { transactions := .jarr []
    summary := .jobj [("balance", .jnum 0), ("income", .jnum 0), ("expense", .jnum 0)]
    isLoading := true }

/-- The outcome of one `fetch` call as the hook observes it: either the
promise rejected (network error with a message), or a response arrived with
an HTTP status and a body whose JSON parse either succeeded or failed. -/
inductive FetchOutcome where
  | response (status : Nat) (body : Except String Json)
  | netErr (msg : String)

/-- JavaScript `response.ok`: status in the 200-299 range. -/
def jsResponseOk (status : Nat) : Bool :=
  decide (200 ≤ status) && decide (status < 300)

/-- The body of `fetchTransaction` before its catch: awaiting the fetch or the
JSON parse propagates their failure; otherwise the parsed body is written
into `transactions`. The HTTP status is never consulted. -/
def fetchTransactionBody (o : FetchOutcome) (st : HookState) : Except String HookState :=
  match o with
  | .netErr m => .error m
  | .response _ (.error m) => .error m
  | .response _ (.ok b) => .ok { st with transactions := b }

/-- Embedding of `fetchTransaction`: its body wrapped in try/catch; the catch
only logs, so the resulting promise always resolves, leaving the state
unchanged on failure. -/
def fetchTransactionP (o : FetchOutcome) (st : HookState) : Except String HookState :=
  match fetchTransactionBody o st with
  | .ok st1 => .ok st1
  | .error _ => .ok st

/-- The body of `fetchSummary` before its catch: like `fetchTransaction`, but
the parsed body is written into `summary`. -/
def fetchSummaryBody (o : FetchOutcome) (st : HookState) : Except String HookState :=
  match o with
  | .netErr m => .error m
  | .response _ (.error m) => .error m
  | .response _ (.ok b) => .ok { st with summary := b }

/-- Embedding of `fetchSummary`: its body wrapped in try/catch; the catch only
logs, so the resulting promise always resolves. -/
def fetchSummaryP (o : FetchOutcome) (st : HookState) : Except String HookState :=
  match fetchSummaryBody o st with
  | .ok st1 => .ok st1
  | .error _ => .ok st

/-- Observable actions of the hook, in order of occurrence. -/
inductive HookEvent where
  | setLoading (b : Bool)
  | fetchListStart
  | fetchListDone
  | fetchSummaryStart
  | fetchSummaryDone
  | deleteRequest (id : String)
  | callLoadData
  | alertShown (title : String) (message : String)
deriving DecidableEq

/-- Embedding of `loadData`: a no-op when `userId` is falsy; otherwise it sets
the loading flag, starts both fetches (`Promise.all` starts them before
awaiting either), awaits both, and in `finally` clears the flag. The result
carries the final state, the event trace, and whether the catch branch of
`loadData` itself ran. The two fetches write disjoint state fields, so the
concurrent execution is embedded as sequential application. -/
def loadData (userId : JsVal) (lo so : FetchOutcome) (st : HookState) :
    HookState × List HookEvent × Bool :=
  if userId.truthy = false then (st, [], false)
  else
    match fetchTransactionP lo { st with isLoading := true } with
    | .error _ =>
        ({ st with isLoading := false },
         [.setLoading true, .fetchListStart, .fetchSummaryStart, .setLoading false], true)
    | .ok st2 =>
      match fetchSummaryP so st2 with
      | .error _ =>
          ({ st2 with isLoading := false },
           [.setLoading true, .fetchListStart, .fetchSummaryStart, .fetchListDone,
            .setLoading false], true)
      | .ok st3 =>
          ({ st3 with isLoading := false },
           [.setLoading true, .fetchListStart, .fetchSummaryStart, .fetchListDone,
            .fetchSummaryDone, .setLoading false], false)

/-- Embedding of `deleteTransactions`: issue the DELETE request; when the
fetch rejects, the catch shows an error alert with the error's message; when
`response.ok` is false, a `Failed to delete transaction` error is thrown and
caught, showing that message; otherwise `loadData()` is triggered and then
the success alert is shown. -/
def deleteTransactions (id : String) (o : FetchOutcome) : List HookEvent :=
  match o with
  | .netErr m => [.deleteRequest id, .alertShown "Error" m]
  | .response s _ =>
      if jsResponseOk s then
        [.deleteRequest id, .callLoadData,
         .alertShown "Success" "Transaction deleted successfully"]
      else
        [.deleteRequest id, .alertShown "Error" "Failed to delete transaction"]

/-! ### Helper lemmas -/

theorem takeWhile_of_all {p : Char → Bool} :
    ∀ l : List Char, (∀ x ∈ l, p x = true) → l.takeWhile p = l := by
  intro l h
  induction l with
  | nil => rfl
  | cons y ys ih =>
    rw [List.takeWhile_cons, h y (List.mem_cons_self y ys)]
    exact congrArg (y :: ·) (ih fun x hx => h x (List.mem_cons_of_mem y hx))

theorem takeWhile_append_of_all {p : Char → Bool} :
    ∀ (a : List Char) (c : Char) (rest : List Char),
    (∀ x ∈ a, p x = true) → p c = false → (a ++ c :: rest).takeWhile p = a := by
  intro a c rest ha hc
  induction a with
  | nil => simpa [List.takeWhile_cons] using hc
  | cons y ys ih =>
    rw [List.cons_append, List.takeWhile_cons, ha y (List.mem_cons_self y ys)]
    exact congrArg (y :: ·) (ih fun x hx => ha x (List.mem_cons_of_mem y hx))

theorem isDigit_not_space {c : Char} (h : c.isDigit = true) : c.isWhitespace = false := by
  by_contra hw
  rw [Bool.not_eq_false] at hw
  simp only [Char.isWhitespace, Bool.or_eq_true, decide_eq_true_eq] at hw
  rcases hw with ((rfl | rfl) | rfl) | rfl <;> exact absurd h (by decide)

theorem isDigit_not_sign {c : Char} (h : c.isDigit = true) :
    (c == '+' || c == '-') = false := by
  by_contra hw
  rw [Bool.not_eq_false] at hw
  simp only [Bool.or_eq_true, beq_iff_eq] at hw
  rcases hw with h1 | h1 <;> subst h1 <;> exact absurd h (by decide)

theorem digitChar_isDigit {m : Nat} (h : m < 10) : (Nat.digitChar m).isDigit = true := by
  interval_cases m <;> decide

theorem toDigitsCore_all_digits :
    ∀ (f n : Nat) (ds : List Char), (∀ c ∈ ds, c.isDigit = true) →
      ∀ c ∈ Nat.toDigitsCore 10 f n ds, c.isDigit = true := by
  intro f
  induction f with
  | zero => intro n ds h; simpa [Nat.toDigitsCore] using h
  | succ f ih =>
    intro n ds h c hc
    rw [Nat.toDigitsCore] at hc
    by_cases hd : n / 10 = 0
    · rw [if_pos hd] at hc
      rcases List.mem_cons.mp hc with rfl | hc2
      · exact digitChar_isDigit (Nat.mod_lt n (by norm_num))
      · exact h c hc2
    · rw [if_neg hd] at hc
      refine ih (n / 10) (Nat.digitChar (n % 10) :: ds) ?_ c hc
      intro x hx
      rcases List.mem_cons.mp hx with rfl | hx2
      · exact digitChar_isDigit (Nat.mod_lt n (by norm_num))
      · exact h x hx2

theorem toDigitsCore_ne_nil :
    ∀ (f n : Nat) (ds : List Char), ds ≠ [] → Nat.toDigitsCore 10 f n ds ≠ [] := by
  intro f
  induction f with
  | zero => intro n ds h; simpa [Nat.toDigitsCore] using h
  | succ f ih =>
    intro n ds h
    rw [Nat.toDigitsCore]
    by_cases hd : n / 10 = 0
    · rw [if_pos hd]; exact List.cons_ne_nil _ _
    · rw [if_neg hd]
      exact ih (n / 10) (Nat.digitChar (n % 10) :: ds) (List.cons_ne_nil _ _)

theorem repr_data_digits (n : Nat) :
    ∃ c rest, (Nat.repr n).data = c :: rest ∧ c.isDigit = true := by
  have hne : Nat.toDigits 10 n ≠ [] := by
    rw [Nat.toDigits, Nat.toDigitsCore]
    by_cases hd : n / 10 = 0
    · rw [if_pos hd]; exact List.cons_ne_nil _ _
    · rw [if_neg hd]
      exact toDigitsCore_ne_nil n (n / 10) [Nat.digitChar (n % 10)] (List.cons_ne_nil _ _)
  have hall : ∀ c ∈ Nat.toDigits 10 n, c.isDigit = true :=
    toDigitsCore_all_digits (n + 1) n [] (by intro c hc; cases hc)
  rcases hl : Nat.toDigits 10 n with _ | ⟨c, rest⟩
  · exact absurd hl hne
  · refine ⟨c, rest, ?_, ?_⟩
    · show (List.asString (Nat.toDigits 10 n)).data = c :: rest
      rw [hl]; rfl
    · exact hall c (hl ▸ List.mem_cons_self c rest)

theorem parseIntIsNaN_repr (n : Nat) : parseIntIsNaN (Nat.repr n) = false := by
  obtain ⟨c, rest, hdata, hdig⟩ := repr_data_digits n
  rw [parseIntIsNaN, hdata, List.dropWhile_cons, isDigit_not_space hdig]
  simp only [Bool.false_eq_true, if_false, isDigit_not_sign hdig, hdig, Bool.not_true]

theorem repr_beq_empty_eq_false (n : Nat) : (Nat.repr n == "") = false := by
  obtain ⟨c, rest, hdata, _⟩ := repr_data_digits n
  rw [beq_eq_false_iff_ne]
  intro h
  rw [h] at hdata
  exact List.noConfusion hdata

theorem find?_eq_some_of_unique {α : Type} {p : α → Bool} :
    ∀ (l : List α) (t : α), t ∈ l → p t = true → (∀ x ∈ l, p x = true → x = t) →
      l.find? p = some t := by
  intro l
  induction l with
  | nil => intro t ht; cases ht
  | cons y ys ih =>
    intro t ht hp huniq
    by_cases hy : p y = true
    · have : y = t := huniq y (List.mem_cons_self y ys) hy
      subst this
      simp [List.find?_cons, hy]
    · have hyf : p y = false := by rwa [Bool.not_eq_true] at hy
      rcases List.mem_cons.mp ht with rfl | ht2
      · exact absurd hp hy
      · rw [List.find?_cons, hyf]
        exact ih t ht2 hp fun x hx h => huniq x (List.mem_cons_of_mem y hx) h

/-! ### Claim theorems -/

/-- C4: for every inbound request, the rate limiter derives the client key as
follows: when a forwarded-for header is present the key is the first
comma-separated token of that header (the whole header when it has no comma,
the prefix before the first comma otherwise), trimmed; when the header is
absent the key is the connection's peer address. -/
theorem clientKey_derivation : ∀ (r : Req) (f a rest : String),
    (r.forwarded = some f → (∀ x ∈ f.data, x ≠ ',') → clientKey r = jsTrim f)
  ∧ (r.forwarded = some (a ++ "," ++ rest) → (∀ x ∈ a.data, x ≠ ',') →
       clientKey r = jsTrim a)
  ∧ (r.forwarded = none → clientKey r = peerAddress r) := by
  intro r f a rest
  refine ⟨fun hf hnc => ?_, fun hf hnc => ?_, fun hf => ?_⟩
  · simp only [clientKey, hf]
    rw [takeWhile_of_all f.data fun x hx => by simpa using hnc x hx]
  · simp only [clientKey, hf]
    have hdata : (a ++ "," ++ rest).data = a.data ++ ',' :: rest.data := by
      rw [String.data_append, String.data_append]
      simp
    rw [hdata, takeWhile_append_of_all a.data ',' rest.data
      (fun x hx => by simpa using hnc x hx) (by decide)]
  · simp only [clientKey, hf]

/-- Witness for C4 at a concrete request: the forwarded-for header
`1.2.3.4, 5.6.7.8` yields the key `1.2.3.4`. -/
theorem clientKey_derivation_witness :
    (∀ x ∈ ("1.2.3.4" : String).data, x ≠ ',')
  ∧ clientKey ⟨some ("1.2.3.4" ++ "," ++ " 5.6.7.8"), some "9.9.9.9", "8.8.8.8"⟩
      = jsTrim "1.2.3.4" :=
  ⟨by decide,
   (clientKey_derivation ⟨some ("1.2.3.4" ++ "," ++ " 5.6.7.8"), some "9.9.9.9", "8.8.8.8"⟩
      "" "1.2.3.4" " 5.6.7.8").2.1 rfl (by decide)⟩

/-- C5: when the external limiter reports `success = false` the middleware
responds 429 with the fixed message and does not pass the request downstream;
when it reports `success = true` the request goes to the next handler; and
when the limiter call throws, the error is forwarded to the error handler. -/
theorem rateLimiter_outcomes : ∀ (limit : String → LimiterCall) (r : Req) (e : String),
    (limit (clientKey r) = .ok false →
       rateLimiter limit r = .respond 429 "Too many requests, please try again later." ∧
       rateLimiter limit r ≠ .callNext)
  ∧ (limit (clientKey r) = .ok true → rateLimiter limit r = .callNext)
  ∧ (limit (clientKey r) = .threw e → rateLimiter limit r = .nextWithError e) := by
  intro limit r e
  refine ⟨fun h => ?_, fun h => ?_, fun h => ?_⟩ <;> rw [rateLimiter, h]
  exact ⟨rfl, by simp⟩

/-- Witness for C5 at a concrete limiter outcome: a failing limiter call
produces the 429 response. -/
theorem rateLimiter_outcomes_witness :
    rateLimiter (fun _ => .ok false) ⟨none, none, "1.1.1.1"⟩
      = .respond 429 "Too many requests, please try again later." :=
  ((rateLimiter_outcomes (fun _ => .ok false) ⟨none, none, "1.1.1.1"⟩ "").1 rfl).1

/-- C7: `loadData` is a no-op when `userId` is falsy; otherwise it sets the
loading flag, issues both the list fetch and the summary fetch, and ends with
the loading flag cleared regardless of either fetch's outcome. -/
theorem loadData_behavior : ∀ (u : JsVal) (lo so : FetchOutcome) (st : HookState),
    (u.truthy = false → loadData u lo so st = (st, [], false))
  ∧ (u.truthy = true →
       HookEvent.setLoading true ∈ (loadData u lo so st).2.1
     ∧ HookEvent.fetchListStart ∈ (loadData u lo so st).2.1
     ∧ HookEvent.fetchSummaryStart ∈ (loadData u lo so st).2.1
     ∧ (loadData u lo so st).1.isLoading = false) := by
  intro u lo so st
  constructor
  · intro h
    rw [loadData, if_pos h]
  · intro h
    rw [loadData, if_neg (by simp [h])]
    rcases h2 : fetchTransactionP lo { st with isLoading := true } with m | st2
    · simp [h2]
    · rcases h3 : fetchSummaryP so st2 with m | st3 <;> simp [h2, h3]

/-- Witness for C7 at concrete inputs: a truthy user id with one failing and
one succeeding fetch still ends with the flag cleared, and a falsy user id is
a no-op. -/
theorem loadData_behavior_witness :
    (loadData (.vstr "u1") (.netErr "down") (.response 200 (.ok (.jnum 3)))
        initialHookState).1.isLoading = false
  ∧ loadData .undef (.netErr "down") (.response 200 (.ok (.jnum 3))) initialHookState
      = (initialHookState, [], false) :=
  ⟨((loadData_behavior (.vstr "u1") (.netErr "down") (.response 200 (.ok (.jnum 3)))
      initialHookState).2 rfl).2.2.2,
   (loadData_behavior .undef (.netErr "down") (.response 200 (.ok (.jnum 3)))
      initialHookState).1 rfl⟩

/-- C8: `deleteTransactions` shows an error alert carrying the failure
message and does not trigger a refresh when the response status is not a
success (or the fetch itself rejects); on a success status it triggers
`loadData` and then shows the success alert. -/
theorem deleteTransactions_behavior :
    ∀ (id : String) (s : Nat) (body : Except String Json) (m : String),
    (jsResponseOk s = false →
       deleteTransactions id (.response s body) =
         [.deleteRequest id, .alertShown "Error" "Failed to delete transaction"]
     ∧ HookEvent.callLoadData ∉ deleteTransactions id (.response s body))
  ∧ (jsResponseOk s = true →
       deleteTransactions id (.response s body) =
         [.deleteRequest id, .callLoadData,
          .alertShown "Success" "Transaction deleted successfully"])
  ∧ (deleteTransactions id (.netErr m) = [.deleteRequest id, .alertShown "Error" m]
     ∧ HookEvent.callLoadData ∉ deleteTransactions id (.netErr m)) := by
  intro id s body m
  refine ⟨fun h => ⟨?_, ?_⟩, fun h => ?_, ⟨rfl, by simp [deleteTransactions]⟩⟩ <;>
    simp [deleteTransactions, h]

/-- Witness for C8 at concrete statuses: a 404 response alerts the failure
and does not refresh; a 200 response refreshes and then alerts success. -/
theorem deleteTransactions_behavior_witness :
    (deleteTransactions "7" (.response 404 (.ok .jnull)) =
       [.deleteRequest "7", .alertShown "Error" "Failed to delete transaction"])
  ∧ deleteTransactions "7" (.response 200 (.ok .jnull)) =
      [.deleteRequest "7", .callLoadData,
       .alertShown "Success" "Transaction deleted successfully"] :=
  ⟨((deleteTransactions_behavior "7" 404 (.ok .jnull) "").1 rfl).1,
   (deleteTransactions_behavior "7" 200 (.ok .jnull) "").2.1 rfl⟩

/-- C9: both fetch helpers catch every failure internally and always resolve,
so for a truthy `userId` the `Promise.all` in `loadData` never rejects, the
catch branch of `loadData` never runs, and both fetches complete before the
loading flag clears (the completion events precede `setLoading false` in the
trace). -/
theorem fetches_always_resolve : ∀ (o lo so : FetchOutcome) (u : JsVal) (st : HookState),
    (∃ st1, fetchTransactionP o st = .ok st1)
  ∧ (∃ st1, fetchSummaryP o st = .ok st1)
  ∧ (loadData u lo so st).2.2 = false
  ∧ (u.truthy = true →
      (loadData u lo so st).2.1 =
        [.setLoading true, .fetchListStart, .fetchSummaryStart, .fetchListDone,
         .fetchSummaryDone, .setLoading false]) := by
  intro o lo so u st
  have hT : ∀ (o1 : FetchOutcome) (st1 : HookState),
      ∃ st2, fetchTransactionP o1 st1 = .ok st2 := by
    intro o1 st1
    rcases o1 with ⟨s, _ | b⟩ | m
    · exact ⟨_, rfl⟩
    · exact ⟨_, rfl⟩
    · exact ⟨_, rfl⟩
  have hS : ∀ (o1 : FetchOutcome) (st1 : HookState),
      ∃ st2, fetchSummaryP o1 st1 = .ok st2 := by
    intro o1 st1
    rcases o1 with ⟨s, _ | b⟩ | m
    · exact ⟨_, rfl⟩
    · exact ⟨_, rfl⟩
    · exact ⟨_, rfl⟩
  refine ⟨hT o st, hS o st, ?_, ?_⟩
  · rw [loadData]
    by_cases h : u.truthy = false
    · rw [if_pos h]
    · rw [if_neg h]
      obtain ⟨st2, h2⟩ := hT lo { st with isLoading := true }
      obtain ⟨st3, h3⟩ := hS so st2
      simp only [h2, h3]
  · intro h
    rw [loadData, if_neg (by simp [h])]
    obtain ⟨st2, h2⟩ := hT lo { st with isLoading := true }
    obtain ⟨st3, h3⟩ := hS so st2
    simp only [h2, h3]

/-- Witness for C9 at concrete inputs: with both fetches failing (one network
error, one JSON parse error) the trace still records both completions before
the flag clears. -/
theorem fetches_always_resolve_witness :
    (loadData (.vstr "u1") (.netErr "down") (.response 500 (.error "bad json"))
        initialHookState).2.1 =
      [.setLoading true, .fetchListStart, .fetchSummaryStart, .fetchListDone,
       .fetchSummaryDone, .setLoading false] :=
  (fetches_always_resolve (.netErr "down") (.netErr "down")
    (.response 500 (.error "bad json")) (.vstr "u1") initialHookState).2.2.2 rfl

/-- C10: the fetch helpers never inspect the HTTP status: any response whose
body parses as JSON — whatever its status, including a 429 or 500 error body —
has the parsed body written into the corresponding state field, replacing the
previous value. -/
theorem fetch_ignores_status : ∀ (s1 s2 : Nat) (b : Json) (st : HookState),
    fetchTransactionP (.response s1 (.ok b)) st = .ok { st with transactions := b }
  ∧ fetchSummaryP (.response s1 (.ok b)) st = .ok { st with summary := b }
  ∧ fetchTransactionP (.response s1 (.ok b)) st = fetchTransactionP (.response s2 (.ok b)) st
  ∧ fetchSummaryP (.response s1 (.ok b)) st = fetchSummaryP (.response s2 (.ok b)) st :=
  fun _ _ _ _ => ⟨rfl, rfl, rfl, rfl⟩

/-- C1: for every user, the summary's `balance` is the sum of all that user's
transaction amounts, `income` the sum of the positive ones, `expense` the sum
of the negative ones (fixed convention: `expense` carries the negative sign),
and a user with no transactions gets the all-zero triple. -/
theorem summary_components_correct : ∀ (u : JsVal) (st : Store),
    (summaryOf u st).balance =
      ((st.items.filter (fun t => t.userId == u)).map (fun t => t.amount)).sum
  ∧ (summaryOf u st).income =
      (((st.items.filter (fun t => t.userId == u)).map (fun t => t.amount)).filter
        (fun a => decide (0 < a))).sum
  ∧ (summaryOf u st).expense =
      (((st.items.filter (fun t => t.userId == u)).map (fun t => t.amount)).filter
        (fun a => decide (a < 0))).sum
  ∧ (st.items.filter (fun t => t.userId == u) = [] →
      summaryOf u st = ⟨0, 0, 0⟩) := by
  intro u st
  refine ⟨rfl, rfl, rfl, fun h => ?_⟩
  simp [summaryOf, userAmounts, h]

/-- Witness for C1 at a concrete store: user 1 with amounts 100 and -30 gets
balance 70, income 100, expense -30; user 3, who has no transactions, gets
all zeros. -/
theorem summary_components_correct_witness :
    summaryOf (.vstr "1")
        ⟨[⟨1, .vstr "1", .vstr "salary", 100, .vstr "pay", 0⟩,
          ⟨2, .vstr "1", .vstr "coffee", -30, .vstr "food", 1⟩,
          ⟨3, .vstr "2", .vstr "gift", 50, .vstr "misc", 2⟩], 4, 3⟩ = ⟨70, 100, -30⟩
  ∧ summaryOf (.vstr "3")
        ⟨[⟨1, .vstr "1", .vstr "salary", 100, .vstr "pay", 0⟩,
          ⟨2, .vstr "1", .vstr "coffee", -30, .vstr "food", 1⟩,
          ⟨3, .vstr "2", .vstr "gift", 50, .vstr "misc", 2⟩], 4, 3⟩ = ⟨0, 0, 0⟩ :=
  ⟨by decide,
   (summary_components_correct (.vstr "3")
      ⟨[⟨1, .vstr "1", .vstr "salary", 100, .vstr "pay", 0⟩,
        ⟨2, .vstr "1", .vstr "coffee", -30, .vstr "food", 1⟩,
        ⟨3, .vstr "2", .vstr "gift", 50, .vstr "misc", 2⟩], 4, 3⟩).2.2.2 (by decide)⟩

/-- C6: `ListByUser(userId)` returns exactly the transactions belonging to
`userId` (as a permutation of the store's filtered records), ordered by
creation time descending, and a user with no transactions gets the empty
sequence with status 200, not an error. -/
theorem listByUser_ordered_complete : ∀ (u : JsVal) (st : Store),
    List.Perm (listByUser u st) (st.items.filter (fun t => t.userId == u))
  ∧ (∀ t, t ∈ listByUser u st ↔ t ∈ st.items ∧ t.userId = u)
  ∧ List.Sorted newerFirst (listByUser u st)
  ∧ ((∀ t ∈ st.items, t.userId ≠ u) → listByUserResponse u st = (200, []))
  ∧ (listByUserResponse u st).1 = 200 := by
  intro u st
  refine ⟨List.perm_insertionSort newerFirst _, fun t => ?_,
    List.sorted_insertionSort newerFirst _, fun h => ?_, rfl⟩
  · rw [listByUser, List.mem_insertionSort, List.mem_filter, beq_iff_eq]
  · have hf : st.items.filter (fun t => t.userId == u) = [] := by
      rw [List.filter_eq_nil_iff]
      intro t ht
      simpa using h t ht
    rw [listByUserResponse, listByUser, hf]
    rfl

/-- Witness for C6 at a concrete store: user 1's listing is in descending
creation order, and user 3's listing is empty with status 200. -/
theorem listByUser_ordered_complete_witness :
    listByUser (.vstr "1")
        ⟨[⟨1, .vstr "1", .vstr "salary", 100, .vstr "pay", 0⟩,
          ⟨2, .vstr "1", .vstr "coffee", -30, .vstr "food", 1⟩,
          ⟨3, .vstr "2", .vstr "gift", 50, .vstr "misc", 2⟩], 4, 3⟩ =
      [⟨2, .vstr "1", .vstr "coffee", -30, .vstr "food", 1⟩,
       ⟨1, .vstr "1", .vstr "salary", 100, .vstr "pay", 0⟩]
  ∧ listByUserResponse (.vstr "3")
        ⟨[⟨1, .vstr "1", .vstr "salary", 100, .vstr "pay", 0⟩,
          ⟨2, .vstr "1", .vstr "coffee", -30, .vstr "food", 1⟩,
          ⟨3, .vstr "2", .vstr "gift", 50, .vstr "misc", 2⟩], 4, 3⟩ = (200, []) :=
  ⟨by decide,
   (listByUser_ordered_complete (.vstr "3")
      ⟨[⟨1, .vstr "1", .vstr "salary", 100, .vstr "pay", 0⟩,
        ⟨2, .vstr "1", .vstr "coffee", -30, .vstr "food", 1⟩,
        ⟨3, .vstr "2", .vstr "gift", 50, .vstr "misc", 2⟩], 4, 3⟩).2.2.2.1 (by decide)⟩

/-- C2 counterexample: in the body `(userId: "u1", title: "", amount: 5,
category: "food")` all four fields are present (none is `undefined`) and the
amount is numeric, yet `createItem` answers 400 and persists nothing — the
truthiness check also rejects present-but-empty fields, refuting the claim
that presence of the four fields with a numeric amount suffices for a 201
insert. -/
theorem create_rejects_present_empty_title :
    (⟨.vstr "u1", .vstr "", .vnum 5, .vstr "food"⟩ : CreateBody).userId ≠ JsVal.undef
  ∧ (⟨.vstr "u1", .vstr "", .vnum 5, .vstr "food"⟩ : CreateBody).title ≠ JsVal.undef
  ∧ (⟨.vstr "u1", .vstr "", .vnum 5, .vstr "food"⟩ : CreateBody).amount = JsVal.vnum 5
  ∧ (⟨.vstr "u1", .vstr "", .vnum 5, .vstr "food"⟩ : CreateBody).category ≠ JsVal.undef
  ∧ (createItem ⟨.vstr "u1", .vstr "", .vnum 5, .vstr "food"⟩ ⟨[], 1, 0⟩).1.status = 400
  ∧ (createItem ⟨.vstr "u1", .vstr "", .vnum 5, .vstr "food"⟩ ⟨[], 1, 0⟩).2 = ⟨[], 1, 0⟩ := by
  decide

/-- C2 (amended): `createItem` answers 400 exactly when one of `userId`,
`title`, `category` is falsy (missing, empty string, or zero) or the amount
is not a number; every 400 leaves the store unchanged; and when the three
fields are truthy and the amount is a number it inserts exactly one record —
with store-assigned `id` and `createdAt` — and returns it with 201. -/
theorem createItem_validation_characterization : ∀ (b : CreateBody) (st : Store),
    ((createItem b st).1.status = 400 ↔
       b.userId.truthy = false ∨ b.title.truthy = false ∨ b.category.truthy = false ∨
         ∀ n : Int, b.amount ≠ JsVal.vnum n)
  ∧ ((createItem b st).1.status = 400 → (createItem b st).2 = st)
  ∧ (∀ n : Int, b.amount = JsVal.vnum n → b.userId.truthy = true → b.title.truthy = true →
       b.category.truthy = true →
       createItem b st =
         (.created (mkTx b n st),
          ⟨mkTx b n st :: st.items, st.nextId + 1, st.now + 1⟩)
     ∧ (mkTx b n st).id = st.nextId ∧ (mkTx b n st).createdAt = st.now) := by
  intro b st
  rcases b with ⟨u, ti, a, c⟩
  cases hu : u.truthy <;> cases hti : ti.truthy <;> cases hc : c.truthy <;>
    rcases a with _ | n | s <;>
    simp_all [createItem, CreateResult.status, mkTx]

/-- Witness for C2 (amended) at a concrete body and store: a fully truthy
body with numeric amount 12 is inserted and returned. -/
theorem createItem_validation_characterization_witness :
    createItem ⟨.vstr "u1", .vstr "lunch", .vnum 12, .vstr "food"⟩ ⟨[], 1, 0⟩ =
      (.created (mkTx ⟨.vstr "u1", .vstr "lunch", .vnum 12, .vstr "food"⟩ 12 ⟨[], 1, 0⟩),
       ⟨[mkTx ⟨.vstr "u1", .vstr "lunch", .vnum 12, .vstr "food"⟩ 12 ⟨[], 1, 0⟩], 2, 1⟩) :=
  ((createItem_validation_characterization
      ⟨.vstr "u1", .vstr "lunch", .vnum 12, .vstr "food"⟩ ⟨[], 1, 0⟩).2.2 12
      rfl (by decide) (by decide) (by decide)).1

/-- C3 counterexample: the id `12abc` is not a numeric string, yet
`deleteItem` does not answer 400: `parseInt` accepts the numeric prefix `12`,
so the request falls through to the store lookup and yields 404. -/
theorem delete_nonNumeric_id_not_badRequest :
    ("12abc".data.all (fun c => c.isDigit)) = false
  ∧ (deleteItem "12abc" ⟨[], 1, 0⟩).1 = .notFound "Item not found"
  ∧ (deleteItem "12abc" ⟨[], 1, 0⟩).1.status ≠ 400 := by
  decide

/-- C3 (amended): `deleteItem` answers 400 exactly for ids that are empty or
whose integer-prefix parse fails (`isNaN(parseInt(id))`); a well-parsing id
matching no stored record yields 404 with the store unchanged (so repeated
deletes of an already-deleted id yield not-found, not a crash); and an id
that is the decimal rendering of an existing record's id removes exactly
that record and returns 200 with the confirmation message and the deleted
item. -/
theorem deleteItem_characterization : ∀ (idStr : String) (st : Store) (t : Transaction),
    (idStr = "" → deleteItem idStr st = (.badRequest "Item ID is required", st))
  ∧ (idStr ≠ "" → parseIntIsNaN idStr = true →
       deleteItem idStr st = (.badRequest "Invalid item ID format", st))
  ∧ (idStr ≠ "" → parseIntIsNaN idStr = false →
       (∀ x ∈ st.items, Nat.repr x.id ≠ idStr) →
       deleteItem idStr st = (.notFound "Item not found", st))
  ∧ (t ∈ st.items → Nat.repr t.id = idStr →
       (st.items.map (fun x => Nat.repr x.id)).Nodup →
       (deleteItem idStr st).1 = .deleted "Item deleted successfully" t
     ∧ (∀ x, x ∈ (deleteItem idStr st).2.items ↔ x ∈ st.items ∧ x ≠ t)
     ∧ (deleteItem idStr st).1.status = 200) := by
  intro idStr st t
  refine ⟨fun h => ?_, fun h1 h2 => ?_, fun h1 h2 h3 => ?_, fun ht hid hnd => ?_⟩
  · subst h; rfl
  · have h1b : (idStr == "") = false := beq_eq_false_iff_ne.mpr h1
    simp [deleteItem, h1b, h2]
  · have h1b : (idStr == "") = false := beq_eq_false_iff_ne.mpr h1
    have hfind : st.items.find? (idMatches idStr) = none := by
      rw [List.find?_eq_none]
      intro x hx
      simp [idMatches, h3 x hx]
    simp [deleteItem, h1b, h2, hfind]
  · subst hid
    have h1b : (Nat.repr t.id == "") = false := repr_beq_empty_eq_false t.id
    have h2b : parseIntIsNaN (Nat.repr t.id) = false := parseIntIsNaN_repr t.id
    have hfind : st.items.find? (idMatches (Nat.repr t.id)) = some t := by
      refine find?_eq_some_of_unique st.items t ht (by simp [idMatches]) ?_
      intro x hx hpx
      have hfx : Nat.repr x.id = Nat.repr t.id := by simpa [idMatches] using hpx
      exact List.inj_on_of_nodup_map hnd hx ht hfx
    refine ⟨by simp [deleteItem, h1b, h2b, hfind], fun x => ?_,
      by simp [deleteItem, h1b, h2b, hfind, DeleteResult.status]⟩
    have hitems : (deleteItem (Nat.repr t.id) st).2.items =
        st.items.filter (fun x => !idMatches (Nat.repr t.id) x) := by
      simp [deleteItem, h1b, h2b, hfind]
    rw [hitems, List.mem_filter]
    constructor
    · rintro ⟨hx, hpx⟩
      refine ⟨hx, fun hxt => ?_⟩
      subst hxt
      simp [idMatches] at hpx
    · rintro ⟨hx, hxt⟩
      refine ⟨hx, ?_⟩
      simp only [idMatches, Bool.not_eq_true']
      rw [beq_eq_false_iff_ne]
      intro hfx
      exact hxt (List.inj_on_of_nodup_map hnd hx ht hfx)

/-- A two-record store used to witness the delete characterization. -/
def deleteWitnessStore : Store :=
  ⟨[⟨1, .vstr "1", .vstr "salary", 100, .vstr "pay", 0⟩,
    ⟨2, .vstr "1", .vstr "coffee", -30, .vstr "food", 1⟩], 3, 2⟩

/-- Witness for C3 (amended) at concrete inputs: deleting id `1` from the
two-record store returns the deleted record with 200, deleting the
non-matching id `9` yields 404 with the store unchanged, and the empty id
yields 400. -/
theorem deleteItem_characterization_witness :
    (deleteItem "1" deleteWitnessStore).1 =
      .deleted "Item deleted successfully" ⟨1, .vstr "1", .vstr "salary", 100, .vstr "pay", 0⟩
  ∧ deleteItem "9" deleteWitnessStore = (.notFound "Item not found", deleteWitnessStore)
  ∧ deleteItem "" deleteWitnessStore = (.badRequest "Item ID is required", deleteWitnessStore) :=
  ⟨((deleteItem_characterization "1" deleteWitnessStore
      ⟨1, .vstr "1", .vstr "salary", 100, .vstr "pay", 0⟩).2.2.2
      (by decide) (by decide) (by decide)).1,
   (deleteItem_characterization "9" deleteWitnessStore
      ⟨1, .vstr "1", .vstr "salary", 100, .vstr "pay", 0⟩).2.2.1
      (by decide) (by decide) (by decide),
   (deleteItem_characterization "" deleteWitnessStore
      ⟨1, .vstr "1", .vstr "salary", 100, .vstr "pay", 0⟩).1 rfl⟩

end RnWallet
